import Mathlib

/-
Verification of the Margaret repository's metric-learning orchestration core
(`ensemble-ti/train_metric.py`), its numpy-dataset wrapper
(`margaret/datasets/np.py`) and the embedding helper of
(`ensemble-ti/utils/plot.py`), as a shallow embedding in Lean 4.

Numeric matrices are modelled as lists of rows of integers (the concrete
numeric content is irrelevant to every property checked here); clustering,
encoding and training are supplied by an abstract environment, since those
components live outside the repository snapshot and are specified only by
their interfaces.
-/

/-- A sample: one fixed-length real-valued feature vector (entries abstracted to Int). -/
abbrev Vec : Type := List Int

/-- A feature matrix: an ordered sequence of samples. -/
abbrev Mat : Type := List Vec

/-- Encoder parameter state, abstract (a flat list of numbers). -/
abbrev Params : Type := List Int

/-- Shape of a (rectangular) matrix: (number of rows, number of columns). -/
def matShape (X : Mat) : Nat × Nat := (X.length, (X.headD []).length)

/-- String keys used by train_metric.py for the metadata store. -/
def kMetricClusters : String := "metric_clusters"

def kXEmbedding : String := "X_embedding"

def kXpca : String := "X_pca"

def kKmeans : String := "kmeans"

def nameNpDataset : String := "NpDataset"

/-- Association-list lookup (first binding wins), modelling a Python dict read. -/
def alist.find (k : String) : List (String × β) → Option β
  | [] => none
  | (k2, v) :: rest => if k2 = k then some v else alist.find k rest

/-- Association-list update by prepending, modelling a Python dict write
(the new binding shadows any older one). -/
def alist.insert (k : String) (v : β) (l : List (String × β)) : List (String × β) :=
  (k, v) :: l

/-- The caller's annotated-data object (`adata`): keyed matrices in `obsm`,
keyed per-sample label vectors in `obs`, and the two `uns` result keys that
train_metric_learner writes after the loop. -/
structure AnnData where
  obsm : List (String × Mat)
  obs : List (String × List Nat)
  uns_clustering_scores : Option (List Int)
  uns_n_cluster_records : Option (List Nat)
deriving DecidableEq, Repr

/-- Python-level failures that the orchestration code can raise. -/
inductive Err where
  /-- a missing key in the metadata store -/
  | keyError : Err
  /-- unsupported clustering backend name (invalid configuration) -/
  | configError : Err
  /-- label/sample count mismatch when building the metric dataset -/
  | dataError : Err
  /-- reference to a Python name that is not defined in the module scope -/
  | nameError (n : String) : Err
deriving DecidableEq, Repr

/-- Modelled from the spec: MetricDataset (datasets/metric.py, not under src/)
wraps a feature matrix and per-sample cluster labels into a triplet-sampling
source. Only the fields and the num_clusters property matter here. -/
structure MetricDataset where
  features : Mat
  labels : List Nat
deriving DecidableEq, Repr

/-- Modelled from the spec: num_clusters is the count of distinct cluster ids
present in the assignment. -/
def MetricDataset.num_clusters (d : MetricDataset) : Nat := d.labels.dedup.length

/-- The external collaborators of the orchestrator, abstracted: the set of
supported clustering backend names, the clustering function (per backend), the
encoder forward pass, the net effect of one trainer.train call on the encoder
parameters, and parameter initialisation of MetricEncoder(infeatures, code_size). -/
structure Env where
  backends : List String
  assign : String → Mat → List Nat × Int
  encode : Params → Vec → Vec
  trainEffect : Nat → Params → MetricDataset → Params
  initParams : Nat → Nat → Params

/-- Modelled from the spec: determine_cell_clusters (utils/util.py, not under
src/) dispatches on the backend name, raising an invalid-configuration error
for an unsupported name; on success it clusters the matrix stored under
obsm_key, writes the labels into the store under cluster_key, and returns
(labels, score) together with the updated store. -/
def determine_cell_clusters (env : Env) (adata : AnnData)
    (obsm_key backend cluster_key : String) :
    Except Err (List Nat × Int × AnnData) :=
  if backend ∈ env.backends then
    match alist.find obsm_key adata.obsm with
    | none => .error Err.keyError
    | some X =>
      let r := env.assign backend X
      .ok (r.1, r.2, { adata with obs := alist.insert cluster_key r.1 adata.obs })
  else
    .error Err.configError

/-- Modelled from the spec: constructing MetricDataset from the store reads the
features under obsm_data_key and the labels under the cluster key, and fails
with an invalid-data error if the label count does not match the sample count. -/
def mkMetricDataset (adata : AnnData) (obsm_data_key obsm_cluster_key : String) :
    Except Err MetricDataset :=
  match alist.find obsm_data_key adata.obsm, alist.find obsm_cluster_key adata.obs with
  | some X, some labels =>
    if labels.length = X.length then .ok ⟨X, labels⟩ else .error Err.dataError
  | _, _ => .error Err.keyError

/-- Modelled from the spec: MetricTrainer (utils/trainer.py, not under src/)
holds the current labeled dataset and the encoder parameters it optimises. -/
structure MetricTrainer where
  dataset : MetricDataset
  params : Params
deriving DecidableEq, Repr

/-- Modelled from the spec: trainer.train(n_epochs, save_path) runs n_epochs of
triplet-loss optimisation, mutating only the encoder parameters (checkpoint
files written to save_path are outside this model). -/
def MetricTrainer.trainCall (env : Env) (t : MetricTrainer) (n_epochs : Nat) :
    MetricTrainer :=
  { t with params := env.trainEffect n_epochs t.params t.dataset }

/-- Modelled from the spec: trainer.update_dataset swaps the dataset used by
subsequent train calls and must not reset any optimiser or parameter state. -/
def MetricTrainer.update_dataset (t : MetricTrainer) (d : MetricDataset) :
    MetricTrainer :=
  { t with dataset := d }

/-- margaret/datasets/np.py: NpDataset wraps a numpy array into a torch
dataset. Construction stores the tensor (value-preserving here) and its shape. -/
structure NpDataset where
  X : Mat
  shape : Nat × Nat
deriving DecidableEq, Repr

/-- NpDataset.__init__: self.X = torch.Tensor(X); self.shape = self.X.shape. -/
def NpDataset.make (X : Mat) : NpDataset := ⟨X, matShape X⟩

/-- NpDataset.__getitem__: returns self.X[idx]; out-of-range indexing raises
IndexError, modelled as none. -/
def NpDataset.getitem (d : NpDataset) (idx : Nat) : Option Vec := d.X.get? idx

/-- NpDataset.__len__: returns self.X.shape[0], the number of rows. -/
def NpDataset.len (d : NpDataset) : Nat := d.X.length

/-- Iterating the dataset (Python's sequence protocol: __getitem__ at
0, 1, ... until IndexError) yields exactly the rows 0 .. len-1 in order. -/
def NpDataset.toRows (d : NpDataset) : List Vec :=
  (List.range (NpDataset.len d)).map (fun i => d.X.getD i [])

/-- ensemble-ti/utils/plot.py: the three dimensionality-reduction fits used by
generate_plot_embeddings, abstracted (kwargs are forwarded opaquely; the umap
branch constructs UMAP() without kwargs). -/
structure PlotEnv where
  phateFit : Mat → Mat
  tsneFit : Mat → Mat
  umapFit : Mat → Mat

def mPhate : String := "phate"

def mTsne : String := "tsne"

def mUmap : String := "umap"

def unsupportedMethodMsg (method : String) : String :=
  "Unsupported embedding method type: " ++ method

/-- ensemble-ti/utils/plot.py, generate_plot_embeddings: phate and tsne branches
return the fitted embedding; the umap branch computes X_umap but falls off the
end of the function without a return statement, so Python returns None; any
other method string raises ValueError. -/
def generate_plot_embeddings (env : PlotEnv) (X : Mat) (method : String) :
    Except String (Option Mat) :=
  if method = mPhate then
    .ok (some (env.phateFit X))
  else if method = mTsne then
    .ok (some (env.tsneFit X))
  else if method = mUmap then
    let _X_umap := env.umapFit X
    .ok none
  else
    .error (unsupportedMethodMsg method)

/-- range over a list's indices mapped through getD reproduces the list. -/
theorem range_map_getD (l : List α) (d : α) :
    (List.range l.length).map (fun i => l.getD i d) = l := by
  induction l with
  | nil => rfl
  | cons a t ih =>
    rw [List.length_cons, List.range_succ_eq_map, List.map_cons, List.map_map]
    exact congrArg (List.cons a) ih

/-- Iteration over NpDataset.make X yields the rows of X, in order. -/
theorem NpDataset.toRows_make (X : Mat) : NpDataset.toRows (NpDataset.make X) = X :=
  range_map_getD X []

/-- Claim C9: generate_plot_embeddings with method umap returns None (the
computed UMAP embedding is discarded), while tsne and phate return the fitted
embedding, and any other method string raises a ValueError. -/
theorem C9_plot_embeddings_returns (env : PlotEnv) (X : Mat) :
    generate_plot_embeddings env X mUmap = .ok none ∧
    generate_plot_embeddings env X mTsne = .ok (some (env.tsneFit X)) ∧
    generate_plot_embeddings env X mPhate = .ok (some (env.phateFit X)) ∧
    ∀ method : String, method ≠ mPhate → method ≠ mTsne → method ≠ mUmap →
      generate_plot_embeddings env X method = .error (unsupportedMethodMsg method) := by
  refine ⟨rfl, rfl, rfl, ?_⟩
  intro method h1 h2 h3
  unfold generate_plot_embeddings
  rw [if_neg h1, if_neg h2, if_neg h3]

/-- Concrete plot environment for the C9 witness. -/
def plotEnvW : PlotEnv := ⟨fun X => X, fun X => X, fun X => X⟩

def matW : Mat := [[1, 2], [3, 4]]

def mBogus : String := "pca"

/-- Witness for C9 at a concrete matrix and a concrete unsupported method. -/
theorem C9_plot_embeddings_returns_witness :
    generate_plot_embeddings plotEnvW matW mUmap = .ok none ∧
    generate_plot_embeddings plotEnvW matW mBogus =
      .error (unsupportedMethodMsg mBogus) :=
  ⟨(C9_plot_embeddings_returns plotEnvW matW).1,
   (C9_plot_embeddings_returns plotEnvW matW).2.2.2 mBogus
     (by decide) (by decide) (by decide)⟩

/-- Claim C10: NpDataset preserves the sample count (len = N), stores the input
shape, and indexing at any i < N returns row i of X, so sample order is kept. -/
theorem C10_npdataset (X : Mat) :
    NpDataset.len (NpDataset.make X) = X.length ∧
    (NpDataset.make X).shape = matShape X ∧
    ∀ i : Nat, i < X.length →
      NpDataset.getitem (NpDataset.make X) i = some (X.getD i []) := by
  refine ⟨rfl, rfl, ?_⟩
  intro i hi
  unfold NpDataset.getitem NpDataset.make
  simp only
  rw [List.getD_eq_getElem?_getD, List.get?_eq_getElem?]
  cases hx : X[i]? with
  | none => exact absurd (List.getElem?_eq_none_iff.mp hx) (Nat.not_le.mpr hi)
  | some v => simp [hx]

/-- Witness for C10 at a concrete matrix and index. -/
theorem C10_npdataset_witness :
    NpDataset.len (NpDataset.make matW) = 2 ∧
    NpDataset.getitem (NpDataset.make matW) 1 = some [3, 4] :=
  ⟨(C10_npdataset matW).1,
   by rw [(C10_npdataset matW).2.2 1 (by decide)]; decide⟩

/-
The faithful model of train_metric_learner (ensemble-ti/train_metric.py).
train_metric.py imports MetricDataset, MetricEncoder, MetricTrainer and
determine_cell_clusters, but does NOT import NpDataset or tqdm, and the loop
body also references an undefined variable preprocessed_data; at runtime the
first undefined name reached inside the loop body is NpDataset (the statements
after it are unreachable and are modelled separately below). Since Python
mutates adata in place, the run result carries the final store even on failure,
plus a trace of entered episode indices and trainer activity.
-/

/-- Result of a run of train_metric_learner: the raised error (if any), the
metadata store as left behind, the episode indices whose bodies were entered,
the number of trainer.train calls made, and whether the MetricTrainer was
constructed. -/
structure RunOut where
  err : Option Err
  adata : AnnData
  episodesEntered : List Nat
  trainCalls : Nat
  trainerMade : Bool
deriving DecidableEq, Repr

/-- The per-episode loop body of train_metric_learner, faithful to the source:
record the episode start time (diagnostic, dropped), call
trainer.train(n_metric_epochs, save_path), start building the embedding list,
and then evaluate NpDataset(X) - which raises NameError, because train_metric.py
never imports NpDataset (nor tqdm). Everything after that line is unreachable. -/
def episodeBody (env : Env) (n_metric_epochs : Nat) (trainer : MetricTrainer) :
    Except Err MetricTrainer :=
  let _trainer := MetricTrainer.trainCall env trainer n_metric_epochs
  let _embedding : Mat := []
  .error (Err.nameError nameNpDataset)

/-- The episode loop (for episode_idx in range(n_episodes)): run each body in
order, aborting at the first raised error; after a normal exit write the two
Episode History lists into adata.uns. -/
def episodeLoop (env : Env) (n_metric_epochs : Nat) :
    List Nat → MetricTrainer → AnnData → List Int → List Nat → RunOut
  | [], _trainer, adata, clustering_scores, cluster_record =>
    ⟨none,
     { adata with
        uns_clustering_scores := some clustering_scores
        uns_n_cluster_records := some cluster_record },
     [], 0, true⟩
  | idx :: rest, trainer, adata, clustering_scores, cluster_record =>
    match episodeBody env n_metric_epochs trainer with
    | .error e => ⟨some e, adata, [idx], 1, true⟩
    | .ok trainer2 =>
      let out := episodeLoop env n_metric_epochs rest trainer2 adata
        clustering_scores cluster_record
      { out with
          episodesEntered := idx :: out.episodesEntered
          trainCalls := out.trainCalls + 1 }

/-- ensemble-ti/train_metric.py, train_metric_learner: read X from
adata.obsm[obsm_data_key]; run the initial clustering and seed the two history
lists; build the initial MetricDataset; construct the encoder parameters
(MetricEncoder(infeatures, code_size)) and the MetricTrainer once; then run the
episode loop; on normal completion the loop writes the history into adata.uns. -/
def train_metric_learner (env : Env) (adata : AnnData)
    (n_episodes n_metric_epochs code_size : Nat)
    (obsm_data_key backend : String) : RunOut :=
  match alist.find obsm_data_key adata.obsm with
  | none => ⟨some Err.keyError, adata, [], 0, false⟩
  | some X =>
    match determine_cell_clusters env adata obsm_data_key backend kMetricClusters with
    | .error e => ⟨some e, adata, [], 0, false⟩
    | .ok (_communities, score, adata1) =>
      let clustering_scores : List Int := [score]
      match mkMetricDataset adata1 obsm_data_key kMetricClusters with
      | .error e => ⟨some e, adata1, [], 0, false⟩
      | .ok dataset =>
        let cluster_record : List Nat := [dataset.num_clusters]
        let infeatures := (X.headD []).length
        let model := env.initParams infeatures code_size
        let trainer : MetricTrainer := ⟨dataset, model⟩
        episodeLoop env n_metric_epochs (List.range n_episodes) trainer adata1
          clustering_scores cluster_record

/-- The episode body always raises the NameError for NpDataset. -/
theorem episodeBody_err (env : Env) (n_metric_epochs : Nat) (trainer : MetricTrainer) :
    episodeBody env n_metric_epochs trainer = .error (Err.nameError nameNpDataset) :=
  rfl

/-- Entering the loop with at least one episode index aborts in that first
episode with the NameError, leaving the store as it was at loop entry. -/
theorem episodeLoop_cons (env : Env) (n_metric_epochs : Nat) (idx : Nat)
    (rest : List Nat) (trainer : MetricTrainer) (adata : AnnData)
    (scores : List Int) (record : List Nat) :
    episodeLoop env n_metric_epochs (idx :: rest) trainer adata scores record =
      ⟨some (Err.nameError nameNpDataset), adata, [idx], 1, true⟩ :=
  rfl

/-- An empty episode list exits the loop normally and writes the history. -/
theorem episodeLoop_nil (env : Env) (n_metric_epochs : Nat)
    (trainer : MetricTrainer) (adata : AnnData)
    (scores : List Int) (record : List Nat) :
    episodeLoop env n_metric_epochs [] trainer adata scores record =
      ⟨none,
       { adata with
          uns_clustering_scores := some scores
          uns_n_cluster_records := some record },
       [], 0, true⟩ :=
  rfl

/-- The scenario feature matrix from the spec: N = 100 samples, D = 50. -/
def scenarioX : Mat :=
  (List.range 100).map (fun i => (List.range 50).map (fun j => (Int.ofNat (i + j))))

/-- A metadata store holding the scenario matrix under X_pca. -/
def scenarioAdata : AnnData := ⟨[(kXpca, scenarioX)], [], none, none⟩

/-- A well-behaved environment: kmeans supported, clustering labels each sample
by its first feature modulo 3 (three initial clusters on the scenario matrix),
identity encoder, training appends a step marker to the parameters. -/
def scenarioEnv : Env :=
  { backends := [kKmeans]
    assign := fun _b M => (M.map (fun row => (row.headD 0).toNat % 3), 0)
    encode := fun _p v => v
    trainEffect := fun _n p _d => p ++ [1]
    initParams := fun _inf _code => [0] }

/-- Claim C2 (code bug evidence): on the spec's scenario input (100 x 50 matrix,
3 initial clusters, n_episodes = 2, n_metric_epochs = 1) train_metric_learner
does not complete: episode 0 raises the NameError for NpDataset, the first of
the undefined names (NpDataset, tqdm, preprocessed_data) in the loop body. -/
theorem C2_scenario_raises :
    (train_metric_learner scenarioEnv scenarioAdata 2 1 10 kXpca kKmeans).err =
      some (Err.nameError nameNpDataset) ∧
    (train_metric_learner scenarioEnv scenarioAdata 2 1 10 kXpca kKmeans).episodesEntered =
      [0] := by
  constructor <;> rfl

/-- Claim C3: whenever a run of train_metric_learner completes without raising,
the two Episode History sequences written to adata.uns each have exactly
n_episodes + 1 entries, and the extra leading entry is the initial
pre-training clustering score. -/
theorem C3_history_lengths (env : Env) (adata : AnnData)
    (n_episodes n_metric_epochs code_size : Nat) (obsm_data_key backend : String)
    (h : (train_metric_learner env adata n_episodes n_metric_epochs code_size
            obsm_data_key backend).err = none) :
    ∃ s : List Int, ∃ r : List Nat,
      (train_metric_learner env adata n_episodes n_metric_epochs code_size
          obsm_data_key backend).adata.uns_clustering_scores = some s ∧
      (train_metric_learner env adata n_episodes n_metric_epochs code_size
          obsm_data_key backend).adata.uns_n_cluster_records = some r ∧
      s.length = n_episodes + 1 ∧ r.length = n_episodes + 1 ∧
      (∀ X : Mat, alist.find obsm_data_key adata.obsm = some X →
        s.headD 0 = (env.assign backend X).2) := by
  unfold train_metric_learner at h ⊢
  cases hX : alist.find obsm_data_key adata.obsm with
  | none =>
    rw [hX] at h
    dsimp only at h
    exact Option.noConfusion h
  | some X =>
    rw [hX] at h
    dsimp only at h ⊢
    cases hd : determine_cell_clusters env adata obsm_data_key backend kMetricClusters with
    | error e =>
      rw [hd] at h
      dsimp only at h
      exact Option.noConfusion h
    | ok res =>
      obtain ⟨communities, score, adata1⟩ := res
      have hscore : score = (env.assign backend X).2 := by
        unfold determine_cell_clusters at hd
        by_cases hb : backend ∈ env.backends
        · rw [if_pos hb, hX] at hd
          cases hd
          rfl
        · rw [if_neg hb] at hd
          exact Except.noConfusion hd
      rw [hd] at h
      dsimp only at h ⊢
      cases hm : mkMetricDataset adata1 obsm_data_key kMetricClusters with
      | error e =>
        rw [hm] at h
        dsimp only at h
        exact Option.noConfusion h
      | ok dataset =>
        rw [hm] at h
        dsimp only at h ⊢
        cases n_episodes with
        | zero =>
          refine ⟨[score], [dataset.num_clusters], ?_⟩
          rw [List.range_zero, episodeLoop_nil]
          exact ⟨rfl, rfl, rfl, rfl, fun Y hY => by cases hY; simpa using hscore⟩
        | succ k =>
          rw [List.range_succ_eq_map, episodeLoop_cons] at h
          exact Option.noConfusion h

/-- A tiny valid input on which a zero-episode run completes normally, for the
C3 witness. -/
def tinyAdata : AnnData := ⟨[(kXpca, [[5], [6]])], [], none, none⟩

/-- Witness for C3: a concrete normally-completing run (n_episodes = 0) whose
history sequences both have length 0 + 1 = 1. -/
theorem C3_history_lengths_witness :
    ∃ s : List Int, ∃ r : List Nat,
      (train_metric_learner scenarioEnv tinyAdata 0 1 10 kXpca kKmeans).adata.uns_clustering_scores = some s ∧
      (train_metric_learner scenarioEnv tinyAdata 0 1 10 kXpca kKmeans).adata.uns_n_cluster_records = some r ∧
      s.length = 0 + 1 ∧ r.length = 0 + 1 ∧
      (∀ X : Mat, alist.find kXpca tinyAdata.obsm = some X →
        s.headD 0 = (scenarioEnv.assign kKmeans X).2) :=
  C3_history_lengths scenarioEnv tinyAdata 0 1 10 kXpca kKmeans (by decide)

/-- Claim C4 counterexample: a failed run does NOT leave the metadata store
unmodified with respect to the run's outputs. On a concrete valid input with
n_episodes = 1 the run raises (NameError in episode 0), yet the cluster
assignment the run wrote under metric_clusters is still in the store
afterwards, unlike in the input store. -/
theorem C4_failed_run_modifies_store :
    (train_metric_learner scenarioEnv tinyAdata 1 1 10 kXpca kKmeans).err.isSome = true ∧
    alist.find kMetricClusters
        (train_metric_learner scenarioEnv tinyAdata 1 1 10 kXpca kKmeans).adata.obs =
      some [2, 0] ∧
    alist.find kMetricClusters tinyAdata.obs = none := by
  refine ⟨rfl, ?_, rfl⟩
  rfl

/-- Claim C4 as amended: a failed run writes no Episode History entries and no
embedding matrix into the store (those writes are never reached), but the store
is not unmodified in general - the cluster assignment written under
metric_clusters before the failure remains (in-place mutation, no rollback). -/
theorem C4_amended_failure_effects (env : Env) (adata : AnnData)
    (n_episodes n_metric_epochs code_size : Nat) (obsm_data_key backend : String)
    (h : (train_metric_learner env adata n_episodes n_metric_epochs code_size
            obsm_data_key backend).err.isSome = true) :
    (train_metric_learner env adata n_episodes n_metric_epochs code_size
        obsm_data_key backend).adata.uns_clustering_scores = adata.uns_clustering_scores ∧
    (train_metric_learner env adata n_episodes n_metric_epochs code_size
        obsm_data_key backend).adata.uns_n_cluster_records = adata.uns_n_cluster_records ∧
    alist.find kXEmbedding
        (train_metric_learner env adata n_episodes n_metric_epochs code_size
          obsm_data_key backend).adata.obsm =
      alist.find kXEmbedding adata.obsm := by
  unfold train_metric_learner at h ⊢
  cases hX : alist.find obsm_data_key adata.obsm with
  | none =>
    dsimp only
    exact ⟨rfl, rfl, rfl⟩
  | some X =>
    rw [hX] at h
    dsimp only at h ⊢
    cases hd : determine_cell_clusters env adata obsm_data_key backend kMetricClusters with
    | error e =>
      dsimp only
      exact ⟨rfl, rfl, rfl⟩
    | ok res =>
      obtain ⟨communities, score, adata1⟩ := res
      rw [hd] at h
      dsimp only at h ⊢
      have hobs : adata1.obsm = adata.obsm ∧
          adata1.uns_clustering_scores = adata.uns_clustering_scores ∧
          adata1.uns_n_cluster_records = adata.uns_n_cluster_records := by
        unfold determine_cell_clusters at hd
        by_cases hb : backend ∈ env.backends
        · rw [if_pos hb, hX] at hd
          cases hd
          exact ⟨rfl, rfl, rfl⟩
        · rw [if_neg hb] at hd
          exact Except.noConfusion hd
      cases hm : mkMetricDataset adata1 obsm_data_key kMetricClusters with
      | error e =>
        dsimp only
        exact ⟨hobs.2.1, hobs.2.2, by rw [hobs.1]⟩
      | ok dataset =>
        rw [hm] at h
        dsimp only at h ⊢
        cases n_episodes with
        | zero =>
          rw [List.range_zero, episodeLoop_nil] at h
          dsimp only at h
          exact Bool.noConfusion h
        | succ k =>
          rw [List.range_succ_eq_map, episodeLoop_cons]
          exact ⟨hobs.2.1, hobs.2.2, by rw [hobs.1]⟩

/-- Witness for the amended C4 at a concrete failing run. -/
theorem C4_amended_failure_effects_witness :
    (train_metric_learner scenarioEnv tinyAdata 1 1 10 kXpca kKmeans).adata.uns_clustering_scores = tinyAdata.uns_clustering_scores ∧
    (train_metric_learner scenarioEnv tinyAdata 1 1 10 kXpca kKmeans).adata.uns_n_cluster_records = tinyAdata.uns_n_cluster_records ∧
    alist.find kXEmbedding
        (train_metric_learner scenarioEnv tinyAdata 1 1 10 kXpca kKmeans).adata.obsm =
      alist.find kXEmbedding tinyAdata.obsm :=
  C4_amended_failure_effects scenarioEnv tinyAdata 1 1 10 kXpca kKmeans (by decide)

/-- Claim C7: with an unsupported backend name (and the feature matrix present,
so that the store read preceding the clustering call succeeds), the
configuration error from the initial clustering call propagates out of
train_metric_learner with the MetricTrainer never constructed and
trainer.train called zero times. -/
theorem C7_unsupported_backend (env : Env) (adata : AnnData)
    (n_episodes n_metric_epochs code_size : Nat) (obsm_data_key backend : String)
    (X : Mat) (hX : alist.find obsm_data_key adata.obsm = some X)
    (hb : backend ∉ env.backends) :
    train_metric_learner env adata n_episodes n_metric_epochs code_size
        obsm_data_key backend =
      ⟨some Err.configError, adata, [], 0, false⟩ := by
  unfold train_metric_learner
  rw [hX]
  dsimp only
  unfold determine_cell_clusters
  rw [if_neg hb]

/-- Witness for C7: a concrete run with backend name "leiden" not in the
supported set aborts with the configuration error, zero train calls, trainer
never made. -/
theorem C7_unsupported_backend_witness :
    train_metric_learner scenarioEnv tinyAdata 2 1 10 kXpca "leiden" =
      ⟨some Err.configError, tinyAdata, [], 0, false⟩ :=
  C7_unsupported_backend scenarioEnv tinyAdata 2 1 10 kXpca "leiden"
    [[5], [6]] (by decide) (by decide)

/-- Claim C8: the episode loop is driven by range(n_episodes): the episodes
entered are exactly 0 .. m-1 for some m ≤ n_episodes (in order, none repeated,
so no retry or backoff), a run that completes without error entered all
n_episodes of them, and a failure aborts the run at the episode that raised
(no later episode is entered). -/
theorem C8_loop_bounds (env : Env) (adata : AnnData)
    (n_episodes n_metric_epochs code_size : Nat) (obsm_data_key backend : String) :
    ∃ m : Nat, m ≤ n_episodes ∧
      (train_metric_learner env adata n_episodes n_metric_epochs code_size
          obsm_data_key backend).episodesEntered = List.range m ∧
      ((train_metric_learner env adata n_episodes n_metric_epochs code_size
          obsm_data_key backend).err = none → m = n_episodes) := by
  unfold train_metric_learner
  cases hX : alist.find obsm_data_key adata.obsm with
  | none => exact ⟨0, Nat.zero_le _, rfl, fun h => absurd h (by simp)⟩
  | some X =>
    dsimp only
    cases hd : determine_cell_clusters env adata obsm_data_key backend kMetricClusters with
    | error e => exact ⟨0, Nat.zero_le _, rfl, fun h => absurd h (by simp)⟩
    | ok res =>
      obtain ⟨communities, score, adata1⟩ := res
      dsimp only
      cases hm : mkMetricDataset adata1 obsm_data_key kMetricClusters with
      | error e => exact ⟨0, Nat.zero_le _, rfl, fun h => absurd h (by simp)⟩
      | ok dataset =>
        dsimp only
        cases n_episodes with
        | zero =>
          refine ⟨0, Nat.le_refl 0, ?_, fun _ => rfl⟩
          rw [List.range_zero, episodeLoop_nil]
        | succ k =>
          refine ⟨1, Nat.succ_le_succ (Nat.zero_le k), ?_, ?_⟩
          · rw [List.range_succ_eq_map, episodeLoop_cons]
            rfl
          · rw [List.range_succ_eq_map, episodeLoop_cons]
            intro h
            exact absurd h (by simp)

/-- Witness for C8 at a concrete run. -/
theorem C8_loop_bounds_witness :
    ∃ m : Nat, m ≤ 2 ∧
      (train_metric_learner scenarioEnv tinyAdata 2 1 10 kXpca kKmeans).episodesEntered =
        List.range m ∧
      ((train_metric_learner scenarioEnv tinyAdata 2 1 10 kXpca kKmeans).err = none →
        m = 2) :=
  C8_loop_bounds scenarioEnv tinyAdata 2 1 10 kXpca kKmeans

/-
The statements of the loop body that sit after the NameError (lines 45-67 of
train_metric.py) are unreachable at runtime, but they are the code the claims
about the inference pass, the re-clustering input and the dataset swap talk
about. They are modelled here with the module-level names resolved: NpDataset
is the class defined in margaret/datasets/np.py, tqdm is an identity iteration
wrapper, and (Modelled from the spec) the undefined variable preprocessed_data
used to rebuild the MetricDataset is taken to be the original feature-matrix
store adata, the resolution the spec documents as its assumption.
-/

/-- data.unsqueeze(0): a single sample becomes a batch of one row. -/
def unsqueeze0 (v : Vec) : Mat := [v]

/-- .squeeze() on the (1, C) output of the batched forward pass as it behaves
for C other than 1 (the repository's default code_size is 10): the batch
dimension drops, leaving the C-vector. The exact squeeze(), including the
collapse of the feature axis at C = 1, is modelled by torchSqueeze below and
used for the shape analysis; row content is the same in both. -/
def squeeze0 (m : Mat) : Vec := m.headD []

/-- model(batch): the encoder applied to every row of a batch. -/
def batchForward (env : Env) (params : Params) (batch : Mat) : Mat :=
  batch.map (env.encode params)

/-- Lines 45-54 of train_metric.py: embedding = []; iterate NpDataset(X) in
order, appending model(data.unsqueeze(0)).squeeze() for each sample; the
resulting list of rows is X_embedding. (model.eval() and torch.no_grad()
disable training-mode statefulness and gradient tracking; the forward pass
itself is unchanged. tqdm only wraps the iteration.) X is the original,
unchanged feature matrix read before the loop. -/
def generate_embeddings (env : Env) (params : Params) (X : Mat) : Mat :=
  (NpDataset.toRows (NpDataset.make X)).map
    (fun data => squeeze0 (batchForward env params (unsqueeze0 data)))

/-- The inference pass is the row-wise encoder map over the original matrix. -/
theorem generate_embeddings_eq_map (env : Env) (params : Params) (X : Mat) :
    generate_embeddings env params X = X.map (env.encode params) := by
  unfold generate_embeddings
  rw [NpDataset.toRows_make]
  rfl

/-- Lines 55-61 of train_metric.py: adata.obsm of X_embedding is assigned the
new embedding matrix, and then the new cluster assignment is generated by
calling determine_cell_clusters with obsm_key = obsm_data_key - that is, on the
original feature matrix, not on the embedding just stored. -/
def recluster_step (env : Env) (adata : AnnData) (obsm_data_key backend : String)
    (X_embedding : Mat) : Except Err (List Nat × Int × AnnData) :=
  let adata2 := { adata with obsm := alist.insert kXEmbedding X_embedding adata.obsm }
  determine_cell_clusters env adata2 obsm_data_key backend kMetricClusters

/-- get? returns the getD value below the length. -/
theorem get?_eq_getD_of_lt (l : List α) (d : α) (i : Nat) (hi : i < l.length) :
    l.get? i = some (l.getD i d) := by
  rw [List.getD_eq_getElem?_getD, List.get?_eq_getElem?]
  cases hx : l[i]? with
  | none => exact absurd (List.getElem?_eq_none_iff.mp hx) (Nat.not_le.mpr hi)
  | some v => simp [hx]

/-- The result of torch's squeeze() on one batched output: a vector when the
feature dimension survives, a scalar when it has size 1 and collapses too. -/
inductive Squeezed where
  | vec (v : Vec) : Squeezed
  | scalar (x : Int) : Squeezed
deriving DecidableEq, Repr

def Squeezed.isScalar : Squeezed → Bool
  | .scalar _ => true
  | .vec _ => false

def Squeezed.toScalar : Squeezed → Int
  | .scalar x => x
  | .vec v => v.headD 0

def Squeezed.toVec : Squeezed → Vec
  | .scalar x => [x]
  | .vec v => v

/-- A numpy array as produced by np.array(embedding): 1-D with shape (N,) when
the list entries are scalars, 2-D with shape (N, C) when they are vectors. -/
inductive NpArr where
  | flat (xs : List Int) : NpArr
  | mat (rows : Mat) : NpArr
deriving DecidableEq, Repr

/-- The numpy shape tuple of the array. -/
def NpArr.shape : NpArr → List Nat
  | .flat xs => [xs.length]
  | .mat rows => [rows.length, (rows.headD []).length]

/-- torch's squeeze() applied to the (1, C) output of the batched forward pass:
it removes every dimension of size 1, so the batch dimension always collapses,
and when C = 1 the feature dimension collapses as well, leaving a 0-d scalar. -/
def torchSqueeze (m : Mat) : Squeezed :=
  let row := m.headD []
  if row.length = 1 then Squeezed.scalar (row.headD 0) else Squeezed.vec row

/-- np.array on the accumulated embedding list: a list of scalars becomes a 1-D
array, a list of (equal-length) vectors a 2-D array with one row per entry. -/
def npStack (l : List Squeezed) : NpArr :=
  if l.all Squeezed.isScalar then NpArr.flat (l.map Squeezed.toScalar)
  else NpArr.mat (l.map Squeezed.toVec)

/-- Lines 45-54 of train_metric.py with squeeze() modelled exactly: iterate
NpDataset(X) in order, append model(data.unsqueeze(0)).squeeze() for each
sample, and take np.array of the list. For code_size other than 1 this is the
(N, C) matrix of generate_embeddings; for code_size 1 the per-sample outputs
collapse to scalars and the result is a flat (N,) array. -/
def generate_embeddings_np (env : Env) (params : Params) (X : Mat) : NpArr :=
  npStack ((NpDataset.toRows (NpDataset.make X)).map
    (fun data => torchSqueeze (batchForward env params (unsqueeze0 data))))

/-- The inference pass stacks the per-sample squeezed encoder outputs, in the
order of the rows of the original matrix. -/
theorem generate_embeddings_np_eq (env : Env) (params : Params) (X : Mat) :
    generate_embeddings_np env params X =
      npStack (X.map (fun v => torchSqueeze [env.encode params v])) := by
  unfold generate_embeddings_np
  rw [NpDataset.toRows_make]
  rfl

/-- Environment for the C5 witness: encoder of fixed output size 2. -/
def envC5 : Env :=
  { backends := [kKmeans]
    assign := fun _b M => (M.map (fun _row => 0), 0)
    encode := fun _p v => [v.headD 0, 7]
    trainEffect := fun _n p _d => p
    initParams := fun _inf _code => [] }

/-- Environment for the C5 counterexample: encoder of output size 1, the valid
configuration code_size = 1 (the spec only rules out sizes of 0 or less). -/
def envC5one : Env :=
  { backends := [kKmeans]
    assign := fun _b M => (M.map (fun _row => 0), 0)
    encode := fun _p v => [v.headD 0]
    trainEffect := fun _n p _d => p
    initParams := fun _inf _code => [] }

def matC5 : Mat := [[1], [2], [3]]

/-- Claim C5 counterexample: at the valid configuration code_size = 1 the
inference pass does not produce an (N, C) matrix. squeeze() collapses each
(1, 1) per-sample output to a scalar, so np.array of the list is a flat array
of shape (3,), not (3, 1), on a concrete 3-sample input. -/
theorem C5_code_size_one_flat :
    generate_embeddings_np envC5one [] matC5 = NpArr.flat [1, 2, 3] ∧
    NpArr.shape (generate_embeddings_np envC5one [] matC5) = [3] ∧
    NpArr.shape (generate_embeddings_np envC5one [] matC5) ≠ [3, 1] := by
  refine ⟨rfl, rfl, ?_⟩
  decide

/-- Claim C5 as amended: in every episode the inference pass yields one entry
per sample of the original feature matrix, in the original sample order, entry
i derived from the encoder's output for sample i; when the configured embedding
size C is at least 2 the result is the (N, C) matrix whose row i is the
encoder's output for sample i, while at C = 1 squeeze() also collapses the
feature axis and the result is a flat (N,) array whose entry i is the single
component of the encoder's output for sample i. -/
theorem C5_embedding_amended (env : Env) (params : Params) (X : Mat) (C : Nat)
    (hC : ∀ p : Params, ∀ v : Vec, (env.encode p v).length = C) (hN : X ≠ []) :
    (2 ≤ C → ∃ rows : Mat,
      generate_embeddings_np env params X = NpArr.mat rows ∧
      rows.length = X.length ∧
      (∀ i : Nat, i < X.length →
        rows.get? i = some (env.encode params (X.getD i []))) ∧
      (∀ row ∈ rows, row.length = C)) ∧
    (C = 1 → ∃ xs : List Int,
      generate_embeddings_np env params X = NpArr.flat xs ∧
      xs.length = X.length ∧
      (∀ i : Nat, i < X.length →
        xs.get? i = some ((env.encode params (X.getD i [])).headD 0))) := by
  constructor
  · intro h2
    have hg : ∀ v : Vec, torchSqueeze [env.encode params v] =
        Squeezed.vec (env.encode params v) := by
      intro v
      have hne : (env.encode params v).length ≠ 1 := by
        rw [hC params v]
        omega
      unfold torchSqueeze
      exact if_neg hne
    have hmap : X.map (fun v => torchSqueeze [env.encode params v]) =
        X.map (fun v => Squeezed.vec (env.encode params v)) :=
      List.map_congr_left (fun v _ => hg v)
    have hall : ((X.map (fun v => Squeezed.vec (env.encode params v))).all
        Squeezed.isScalar) = false := by
      cases X with
      | nil => exact absurd rfl hN
      | cons x t => rfl
    refine ⟨X.map (env.encode params), ?_, by simp, ?_, ?_⟩
    · rw [generate_embeddings_np_eq, hmap]
      unfold npStack
      rw [hall, if_neg (by decide), List.map_map]
      rfl
    · intro i hi
      rw [List.get?_map, get?_eq_getD_of_lt X [] i hi]
      rfl
    · intro row hrow
      obtain ⟨v, _hv, rfl⟩ := List.mem_map.mp hrow
      exact hC params v
  · intro h1
    have hg : ∀ v : Vec, torchSqueeze [env.encode params v] =
        Squeezed.scalar ((env.encode params v).headD 0) := by
      intro v
      have he : (env.encode params v).length = 1 := (hC params v).trans h1
      unfold torchSqueeze
      exact if_pos he
    have hmap : X.map (fun v => torchSqueeze [env.encode params v]) =
        X.map (fun v => Squeezed.scalar ((env.encode params v).headD 0)) :=
      List.map_congr_left (fun v _ => hg v)
    have hall : ((X.map (fun v => Squeezed.scalar ((env.encode params v).headD 0))).all
        Squeezed.isScalar) = true :=
      List.all_eq_true.mpr (fun s hs => by
        obtain ⟨v, _hv, rfl⟩ := List.mem_map.mp hs
        rfl)
    refine ⟨X.map (fun v => (env.encode params v).headD 0), ?_, by simp, ?_⟩
    · rw [generate_embeddings_np_eq, hmap]
      unfold npStack
      rw [hall, if_pos rfl, List.map_map]
      rfl
    · intro i hi
      rw [List.get?_map, get?_eq_getD_of_lt X [] i hi]
      rfl

/-- Witness for the amended C5 at a concrete size-2 encoder and 3-sample
matrix: the result is the (3, 2) matrix of encoder outputs in sample order. -/
theorem C5_embedding_amended_witness :
    ∃ rows : Mat,
      generate_embeddings_np envC5 [] matC5 = NpArr.mat rows ∧
      rows.length = matC5.length ∧
      (∀ i : Nat, i < matC5.length →
        rows.get? i = some (envC5.encode [] (matC5.getD i []))) ∧
      (∀ row ∈ rows, row.length = 2) :=
  (C5_embedding_amended envC5 [] matC5 2 (fun _p _v => rfl) (by decide)).1
    (by decide)

/-- Environment for the C1 evaluation: the clusterer labels each sample by its
first feature, so clustering the raw matrix and clustering the embedding give
visibly different assignments. -/
def envC1 : Env :=
  { backends := [kKmeans]
    assign := fun _b M => (M.map (fun row => (row.headD 0).toNat), 0)
    encode := fun _p _v => [0]
    trainEffect := fun _n p _d => p
    initParams := fun _inf _code => [] }

def XrawC1 : Mat := [[1], [2]]

def XembC1 : Mat := [[0], [0]]

def adataC1 : AnnData := ⟨[(kXpca, XrawC1)], [], none, none⟩

/-- Claim C1 (code bug evidence): in the re-clustering step the new cluster
assignment equals the clusterer's output on the original raw feature matrix
(stored under obsm_data_key = X_pca), not its output on the episode's embedding
matrix, even though that embedding was just stored under X_embedding; on this
input the two assignments differ. -/
theorem C1_recluster_uses_raw_features :
    Except.map (fun r => r.1) (recluster_step envC1 adataC1 kXpca kKmeans XembC1) =
      Except.ok (envC1.assign kKmeans XrawC1).1 ∧
    (envC1.assign kKmeans XrawC1).1 = [1, 2] ∧
    (envC1.assign kKmeans XembC1).1 = [0, 0] ∧
    (envC1.assign kKmeans XrawC1).1 ≠ (envC1.assign kKmeans XembC1).1 := by
  refine ⟨rfl, rfl, rfl, ?_⟩
  decide

/-- Loop state for the resolved episode body: the trainer (dataset plus encoder
parameters), the metadata store, and the two history lists. -/
structure EpiState where
  trainer : MetricTrainer
  adata : AnnData
  clustering_scores : List Int
  cluster_record : List Nat
deriving DecidableEq, Repr

/-- The full episode body of train_metric.py (lines 41-67) with its unresolved
names resolved as described above: train for n_metric_epochs; run the inference
pass over the original X; store the embedding under X_embedding; generate the
new cluster assignment (on obsm_data_key, as written); append score and cluster
count to the history; rebuild the MetricDataset (Modelled from the spec: from
the original store, the spec's documented reading of the undefined
preprocessed_data) and swap it in with trainer.update_dataset. -/
def episode_body_resolved (env : Env) (n_metric_epochs : Nat) (X : Mat)
    (obsm_data_key backend : String) (s : EpiState) : Except Err EpiState :=
  let trainer2 := MetricTrainer.trainCall env s.trainer n_metric_epochs
  let X_embedding := generate_embeddings env trainer2.params X
  let adata2 := { s.adata with obsm := alist.insert kXEmbedding X_embedding s.adata.obsm }
  match determine_cell_clusters env adata2 obsm_data_key backend kMetricClusters with
  | .error e => .error e
  | .ok (_communities, score, adata3) =>
    let scores2 := s.clustering_scores ++ [score]
    match mkMetricDataset adata3 obsm_data_key kMetricClusters with
    | .error e => .error e
    | .ok dataset2 =>
      let record2 := s.cluster_record ++ [dataset2.num_clusters]
      .ok ⟨MetricTrainer.update_dataset trainer2 dataset2, adata3, scores2, record2⟩

/-- k episodes of the resolved body, run strictly in order, aborting at the
first failure. -/
def runEpisodesResolved (env : Env) (n_metric_epochs : Nat) (X : Mat)
    (obsm_data_key backend : String) : Nat → EpiState → Except Err EpiState
  | 0, s => .ok s
  | k + 1, s =>
    match runEpisodesResolved env n_metric_epochs X obsm_data_key backend k s with
    | .error e => .error e
    | .ok s1 => episode_body_resolved env n_metric_epochs X obsm_data_key backend s1

/-- Claim C6: the state entering episode 0 is exactly the pre-loop state (the
encoder parameters are constructed once, before the first episode), and for
every later episode the trainer leaving episode k+1 is the result of applying
only trainer.train and then trainer.update_dataset to the trainer that left
episode k; in particular its parameters are exactly the training effect applied
to episode k's end-state parameters - never re-initialised, and untouched by
the dataset swap. -/
theorem C6_warm_start (env : Env) (n_metric_epochs : Nat) (X : Mat)
    (obsm_data_key backend : String) (s0 : EpiState) (k : Nat) (s2 : EpiState)
    (h : runEpisodesResolved env n_metric_epochs X obsm_data_key backend (k + 1) s0 =
      .ok s2) :
    runEpisodesResolved env n_metric_epochs X obsm_data_key backend 0 s0 = .ok s0 ∧
    ∃ s1 : EpiState,
      runEpisodesResolved env n_metric_epochs X obsm_data_key backend k s0 = .ok s1 ∧
      s2.trainer =
        MetricTrainer.update_dataset
          (MetricTrainer.trainCall env s1.trainer n_metric_epochs) s2.trainer.dataset ∧
      s2.trainer.params =
        env.trainEffect n_metric_epochs s1.trainer.params s1.trainer.dataset := by
  refine ⟨rfl, ?_⟩
  unfold runEpisodesResolved at h
  cases hk : runEpisodesResolved env n_metric_epochs X obsm_data_key backend k s0 with
  | error e =>
    rw [hk] at h
    exact Except.noConfusion h
  | ok s1 =>
    rw [hk] at h
    refine ⟨s1, rfl, ?_⟩
    unfold episode_body_resolved at h
    dsimp only at h
    split at h
    · exact Except.noConfusion h
    · split at h
      · exact Except.noConfusion h
      · cases h
        exact ⟨rfl, rfl⟩

/-- Environment and initial state for the C6 witness: training appends a step
marker to the parameters, so the warm start is visible in the end state. -/
def envC6 : Env :=
  { backends := [kKmeans]
    assign := fun _b M => (M.map (fun _row => 0), 0)
    encode := fun _p v => v
    trainEffect := fun _n p _d => p ++ [1]
    initParams := fun _inf _code => [0] }

def XC6 : Mat := [[3]]

def s0C6 : EpiState :=
  ⟨⟨⟨XC6, [0]⟩, envC6.initParams 1 10⟩, ⟨[(kXpca, XC6)], [], none, none⟩, [0], [1]⟩

/-- The state after one resolved episode from s0C6. -/
def s1C6 : EpiState :=
  ⟨⟨⟨XC6, [0]⟩, [0, 1]⟩,
   ⟨[(kXEmbedding, XC6), (kXpca, XC6)], [(kMetricClusters, [0])], none, none⟩,
   [0, 0], [1, 1]⟩

/-- Witness for C6 at a concrete one-episode run. -/
theorem C6_warm_start_witness :
    runEpisodesResolved envC6 5 XC6 kXpca kKmeans 0 s0C6 = .ok s0C6 ∧
    ∃ s1 : EpiState,
      runEpisodesResolved envC6 5 XC6 kXpca kKmeans 0 s0C6 = .ok s1 ∧
      s1C6.trainer =
        MetricTrainer.update_dataset
          (MetricTrainer.trainCall envC6 s1.trainer 5) s1C6.trainer.dataset ∧
      s1C6.trainer.params = envC6.trainEffect 5 s1.trainer.params s1.trainer.dataset :=
  C6_warm_start envC6 5 XC6 kXpca kKmeans s0C6 0 s1C6 (by rfl)
